import Mathlib

/-!
Verification development for scripts/reset-admin.py, the CloudBox admin
password reset tool.  The script is embedded shallowly: Python strings are
lists of characters, the interactive console is a pair of input streams
(plain stdin for input(), a masked stream for getpass.getpass()), the
database is an explicit table of rows together with a transactional
connection, and database statement failures are injected through an
explicit schedule of booleans, one per executed statement.  An entry
`none` in an input stream models the operator pressing Ctrl+C at that
prompt (KeyboardInterrupt); an exhausted stream models end of input
(EOFError).  The wall clock is modelled as a single value for the whole
run, and the bcrypt salt as a natural number parameter.
-/

/-- Python strings are modelled as lists of characters. -/
abbrev Str := List Char

/-- The whitespace characters removed by the Python str.strip method. -/
def isPySpace (c : Char) : Bool :=
  c == ' ' || c == '\t' || c == '\n' || c == '\r' || c == '\x0b' || c == '\x0c'

/-- Python str.strip: remove leading and trailing whitespace. -/
def pyStrip (l : Str) : Str :=
  ((l.dropWhile isPySpace).reverse.dropWhile isPySpace).reverse

/-- Python str.lower on the ASCII range, as used on the confirmation reply. -/
def pyLower (l : Str) : Str :=
  l.map Char.toLower

/-- Worker for pyTitle.  The boolean records whether the previous character
was cased (a letter): a letter after an uncased character is uppercased,
a letter after a cased character is lowercased. -/
def pyTitleGo : Bool → Str → Str
  | _, [] => []
  | prevCased, c :: cs =>
      if c.isAlpha then
        (if prevCased then c.toLower else c.toUpper) :: pyTitleGo true cs
      else
        c :: pyTitleGo false cs

/-- Python str.title, as used on the default display name. -/
def pyTitle (l : Str) : Str :=
  pyTitleGo false l

/-- Python str.split with a one-character separator. -/
def splitOnChar (sep : Char) : Str → List Str
  | [] => [[]]
  | c :: cs =>
      if c = sep then [] :: splitOnChar sep cs
      else
        match splitOnChar sep cs with
        | [] => [[c]]
        | h :: t => (c :: h) :: t

/-- The email check of get_email_input, line 144 of the script: the Python
regular expression match of `^[^@]+@[^@]+\.[^@]+$`.  A string matches
exactly when it splits as local + at-sign + domain where the local part is
a nonempty run of non-at characters, the domain contains no at sign, and
the domain has a dot at some position that leaves a nonempty non-at run on
each side, i.e. a dot that is neither its first nor its last character. -/
def emailMatch (s : Str) : Bool :=
  let l := s.takeWhile (fun c => !(c == '@'))
  match s.drop l.length with
  | '@' :: domain =>
      !(l.isEmpty) && !(domain.contains '@') &&
        ((domain.drop 1).dropLast.contains '.')
  | _ => false

/-- Line 168 of the script: the default display name is the local part of
the email with dots replaced by spaces, title-cased. -/
def defaultNameOf (email : Str) : Str :=
  pyTitle (((splitOnChar '@' email).headD []).map
    (fun c => if c = '.' then ' ' else c))

namespace bcrypt

/-- Model of the external bcrypt library: hashpw produces a self-contained
string holding the salt (as a unary marker prefix), a separator, and an
invertible digest of the password (the password itself in the model;
one-wayness is outside the model, only verification behaviour matters). -/
def hashpw (pw : Str) (salt : Nat) : Str :=
  List.replicate salt 'x' ++ '$' :: pw

/-- Recover the salt marker from a stored hash string. -/
def saltOf (h : Str) : Nat :=
  (h.takeWhile (fun c => c == 'x')).length

/-- Model of bcrypt.checkpw: rehash the candidate password with the salt
found in the stored hash and compare. -/
def checkpw (pw h : Str) : Bool :=
  h == hashpw pw (saltOf h)

end bcrypt

/-- One row of the users table, with the columns the script touches. -/
structure Row where
  id : Nat
  created_at : Nat
  updated_at : Nat
  email : Str
  name : Str
  password_hash : Str
  role : Str
  is_active : Bool
deriving DecidableEq, Repr

/-- The users table plus the identifier generator of the store. -/
structure Db where
  rows : List Row
  nextId : Nat
deriving DecidableEq, Repr

/-- Line 62 and line 114: SELECT ... FROM users WHERE email = given email,
fetching one row. -/
def selectByEmail (db : Db) (email : Str) : Option Row :=
  db.rows.find? (fun r => r.email == email)

/-- Lines 70 to 84: INSERT INTO users ... RETURNING id.  Returns the
generated identifier together with the new table state. -/
def insertUser (db : Db) (created updated : Nat) (email name hash role : Str)
    (active : Bool) : Nat × Db :=
  (db.nextId,
   { rows := db.rows ++
       [{ id := db.nextId, created_at := created, updated_at := updated,
          email := email, name := name, password_hash := hash,
          role := role, is_active := active }],
     nextId := db.nextId + 1 })

/-- Lines 95 to 105: UPDATE users SET password_hash, role, is_active,
updated_at WHERE email = given email. -/
def updateByEmail (db : Db) (hash role : Str) (active : Bool) (updated : Nat)
    (email : Str) : Db :=
  { db with rows := db.rows.map (fun r =>
      if r.email = email then
        { r with password_hash := hash, role := role, is_active := active,
                 updated_at := updated }
      else r) }

/-- How a console read can fail: Ctrl+C (KeyboardInterrupt) or end of
input (EOFError). -/
inductive Halt where
  | interrupted
  | eofError
deriving DecidableEq, Repr

/-- How the process ends: main returned (exit status 0), sys.exit(1) was
called (fatal), a KeyboardInterrupt reached the top-level handler, or an
unhandled Python exception reached the catch-all handler.  The last two
also terminate with sys.exit(1). -/
inductive Outcome where
  | normal
  | fatal
  | interrupted
  | pyError
deriving DecidableEq, Repr

/-- A KeyboardInterrupt escaping main is caught at lines 183 to 185; any
other exception escaping main is caught at lines 186 to 188. -/
def haltOutcome : Halt → Outcome
  | .interrupted => .interrupted
  | .eofError => .pyError

/-- The observable result of one process run: how it ended, the committed
database state that persists, whether the cleanup path of lines 132 to 134
(cursor.close and conn.close) was executed, and the identifier captured
from the INSERT ... RETURNING clause, when one was. -/
structure RunResult where
  outcome : Outcome
  db : Db
  closed : Bool
  capturedId : Option Nat
deriving DecidableEq, Repr

/-- The environment of one run: whether a connection string is set in the
environment, whether connecting succeeds, the stdin lines (none marks a
Ctrl+C at that prompt), the masked getpass lines, the clock value, the
bcrypt salt, and the failure schedule of the database statements, one
boolean per executed statement in program order. -/
structure World where
  envSet : Bool
  connOk : Bool
  stdin : List (Option Str)
  masked : List (Option Str)
  now : Nat
  salt : Nat
  dbFail : List Bool

/-- Pop the next entry of the statement failure schedule; an exhausted
schedule means no further failures. -/
def popFail : List Bool → Bool × List Bool
  | [] => (false, [])
  | b :: rest => (b, rest)

/-- Lines 136 to 148: loop reading stdin until a stripped, nonempty line
matching the email pattern is read. -/
def get_email_input : List (Option Str) → Except Halt (Str × List (Option Str))
  | [] => .error .eofError
  | none :: _ => .error .interrupted
  | some line :: rest =>
      let email := pyStrip line
      if email = [] then get_email_input rest
      else if emailMatch email then .ok (email, rest)
      else get_email_input rest

/-- Lines 150 to 164: loop reading the masked stream until a password of
at least six characters is read and the next masked line repeats it
exactly.  Neither entry is stripped. -/
def get_password_input : List (Option Str) → Except Halt (Str × List (Option Str))
  | [] => .error .eofError
  | none :: _ => .error .interrupted
  | [some _] => .error .eofError
  | some _ :: none :: _ => .error .interrupted
  | some pw :: some confirm :: rest =>
      if pw.length < 6 then get_password_input (some confirm :: rest)
      else if pw = confirm then .ok (pw, rest)
      else get_password_input rest

/-- Lines 166 to 172: read one line; a stripped empty line selects the
default name derived from the email, anything else is the stripped line. -/
def get_name_input (email : Str) :
    List (Option Str) → Except Halt (Str × List (Option Str))
  | [] => .error .eofError
  | none :: _ => .error .interrupted
  | some line :: rest =>
      let name := pyStrip line
      .ok (if name = [] then defaultNameOf email else name, rest)

/-- Lines 174 to 178: read one line; the run proceeds only when the
stripped, lowercased reply is yes or y. -/
def confirm_action : List (Option Str) → Except Halt (Bool × List (Option Str))
  | [] => .error .eofError
  | none :: _ => .error .interrupted
  | some line :: rest =>
      let response := pyLower (pyStrip line)
      .ok (response == ("yes").toList || response == ("y").toList, rest)

/-- Lines 60 to 134 of main: the try block holding the upsert, the final
re-read, the except handler (rollback and sys.exit(1)), and the finally
block closing cursor and connection.  The connection starts with committed
state db0; uncommitted work is discarded at process end, so the database
field of the result is always the committed state.  Statement order within
the try block: the lookup SELECT, then INSERT or UPDATE, then COMMIT, then
the re-read SELECT; each consumes one entry of the failure schedule.  The
name prompt of line 68 runs inside the try block, so an EOFError there is
caught by the except handler while a KeyboardInterrupt passes through the
finally block to the top-level handler. -/
def upsertPhase (w : World) (db0 : Db) (stdin : List (Option Str))
    (email hashed : Str) : RunResult :=
  let p1 := popFail w.dbFail
  if p1.1 then ⟨.fatal, db0, true, none⟩
  else
    match selectByEmail db0 email with
    | none =>
        match get_name_input email stdin with
        | .error .eofError => ⟨.fatal, db0, true, none⟩
        | .error .interrupted => ⟨.interrupted, db0, true, none⟩
        | .ok (name, _) =>
            let p2 := popFail p1.2
            if p2.1 then ⟨.fatal, db0, true, none⟩
            else
              let ins := insertUser db0 w.now w.now email name hashed
                (("admin").toList) true
              let p3 := popFail p2.2
              if p3.1 then ⟨.fatal, db0, true, some ins.1⟩
              else
                let p4 := popFail p3.2
                if p4.1 then ⟨.fatal, ins.2, true, some ins.1⟩
                else
                  match selectByEmail ins.2 email with
                  | none => ⟨.fatal, ins.2, true, some ins.1⟩
                  | some _ => ⟨.normal, ins.2, true, some ins.1⟩
    | some _ =>
        let p2 := popFail p1.2
        if p2.1 then ⟨.fatal, db0, true, none⟩
        else
          let db1 := updateByEmail db0 hashed (("admin").toList) true w.now email
          let p3 := popFail p2.2
          if p3.1 then ⟨.fatal, db0, true, none⟩
          else
            let p4 := popFail p3.2
            if p4.1 then ⟨.fatal, db1, true, none⟩
            else
              match selectByEmail db1 email with
              | none => ⟨.fatal, db1, true, none⟩
              | some _ => ⟨.normal, db1, true, none⟩

namespace script

/-- Lines 11 to 134: the whole of main, from the environment check to the
upsert phase.  The paths that leave main before the try block of line 60
(connection failure, prompt interrupts, a declined confirmation) never
reach the finally block, so they return with closed = false. -/
def main (w : World) (db0 : Db) : RunResult :=
  let envStep : Except Halt (List (Option Str)) :=
    if w.envSet then .ok w.stdin
    else
      match w.stdin with
      | [] => .error .eofError
      | none :: _ => .error .interrupted
      | some _ :: rest => .ok rest
  match envStep with
  | .error h => ⟨haltOutcome h, db0, false, none⟩
  | .ok stdin1 =>
      if w.connOk = false then ⟨.fatal, db0, false, none⟩
      else
        match get_email_input stdin1 with
        | .error h => ⟨haltOutcome h, db0, false, none⟩
        | .ok (email, stdin2) =>
            match get_password_input w.masked with
            | .error h => ⟨haltOutcome h, db0, false, none⟩
            | .ok (password, _) =>
                match confirm_action stdin2 with
                | .error h => ⟨haltOutcome h, db0, false, none⟩
                | .ok (ok, stdin3) =>
                    if ok = false then ⟨.normal, db0, false, none⟩
                    else
                      upsertPhase w db0 stdin3 email
                        (bcrypt.hashpw password w.salt)

end script

/-- Lines 180 to 188: the process exit status.  A plain return from main
ends the script with status 0; sys.exit(1), the KeyboardInterrupt handler
and the catch-all handler all end it with status 1. -/
def processExit (r : RunResult) : Nat :=
  match r.outcome with
  | .normal => 0
  | .fatal => 1
  | .interrupted => 1
  | .pyError => 1

/-- A run in which the environment provides the connection string, the
connection succeeds, the operator types the email line, answers yes to the
confirmation, types the name entry when prompted, and enters the password
twice on the masked stream. -/
def okWorld (eLine pw : Str) (nameEntry : Option Str) (now salt : Nat)
    (fs : List Bool) : World :=
  { envSet := true, connOk := true,
    stdin := [some eLine, some (("yes").toList), nameEntry],
    masked := [some pw, some pw],
    now := now, salt := salt, dbFail := fs }

/-- A run identical to okWorld except that the confirmation reply is the
given line and no name line follows. -/
def declineWorld (eLine pw resp : Str) (now salt : Nat) (fs : List Bool) :
    World :=
  { envSet := true, connOk := true,
    stdin := [some eLine, some resp],
    masked := [some pw, some pw],
    now := now, salt := salt, dbFail := fs }

/-- A run like okWorld but with an arbitrary stdin tail after the email
line and the yes reply, so that the name prompt can also meet end of
input (empty tail) or an interrupt (a tail headed by none). -/
def okWorldStdin (eLine pw : Str) (nameStdin : List (Option Str))
    (now salt : Nat) (fs : List Bool) : World :=
  { envSet := true, connOk := true,
    stdin := some eLine :: some (("yes").toList) :: nameStdin,
    masked := [some pw, some pw],
    now := now, salt := salt, dbFail := fs }

example : emailMatch (("a@b.c").toList) = true := by decide
example : emailMatch (("a@bc").toList) = false := by decide
example : emailMatch (("@b.c").toList) = false := by decide
example : emailMatch (("a@.c").toList) = false := by decide
example : emailMatch (("a@b.").toList) = false := by decide
example : emailMatch (("a@b@c.d").toList) = false := by decide
example : emailMatch (("").toList) = false := by decide
example : emailMatch (("john.doe@mail.example.org").toList) = true := by decide
example : pyStrip (("  a b  ").toList) = ("a b").toList := by decide
example : defaultNameOf (("john.doe@x.io").toList) = ("John Doe").toList := by
  decide
example : bcrypt.checkpw (("secret").toList)
    (bcrypt.hashpw (("secret").toList) 3) = true := by decide
example : bcrypt.checkpw (("other1").toList)
    (bcrypt.hashpw (("secret").toList) 3) = false := by decide

example :
    script.main (okWorld (("a@b.c").toList) (("secret").toList)
        (some (("Ann").toList)) 7 2 []) ⟨[], 5⟩ =
      ⟨.normal,
       ⟨[{ id := 5, created_at := 7, updated_at := 7,
           email := ("a@b.c").toList, name := ("Ann").toList,
           password_hash := bcrypt.hashpw (("secret").toList) 2,
           role := ("admin").toList, is_active := true }], 6⟩,
       true, some 5⟩ := by decide

example :
    script.main (okWorld (("a@b.c").toList) (("secret").toList)
        (some (("Ann").toList)) 7 2 [])
      ⟨[{ id := 1, created_at := 0, updated_at := 0,
          email := ("a@b.c").toList, name := ("Bob").toList,
          password_hash := ("old").toList,
          role := ("user").toList, is_active := false }], 2⟩ =
      ⟨.normal,
       ⟨[{ id := 1, created_at := 0, updated_at := 7,
           email := ("a@b.c").toList, name := ("Bob").toList,
           password_hash := bcrypt.hashpw (("secret").toList) 2,
           role := ("admin").toList, is_active := true }], 2⟩,
       true, none⟩ := by decide

example :
    script.main (declineWorld (("a@b.c").toList) (("secret").toList)
        (("no").toList) 7 2 []) ⟨[], 5⟩ =
      ⟨.normal, ⟨[], 5⟩, false, none⟩ := by decide

example :
    script.main (okWorld (("a@b.c").toList) (("secret").toList)
        (some (("Ann").toList)) 7 2 [false, true]) ⟨[], 5⟩ =
      ⟨.fatal, ⟨[], 5⟩, true, none⟩ := by decide

example :
    script.main (okWorld (("a@b.c").toList) (("secret").toList)
        (some (("Ann").toList)) 7 2 [false, false, false, true]) ⟨[], 5⟩ =
      ⟨.fatal,
       ⟨[{ id := 5, created_at := 7, updated_at := 7,
           email := ("a@b.c").toList, name := ("Ann").toList,
           password_hash := bcrypt.hashpw (("secret").toList) 2,
           role := ("admin").toList, is_active := true }], 6⟩,
       true, some 5⟩ := by decide

/-! Helper lemmas about the store operations and the run pipeline. -/

theorem selectByEmail_eq_none (db : Db) (e : Str)
    (h : ∀ r ∈ db.rows, r.email ≠ e) : selectByEmail db e = none := by
  unfold selectByEmail
  rw [List.find?_eq_none]
  intro x hx
  simp only [beq_iff_eq]
  exact h x hx

theorem selectByEmail_split (pre post : List Row) (r : Row) (n : Nat) (e : Str)
    (hpre : ∀ x ∈ pre, x.email ≠ e) (hr : r.email = e) :
    selectByEmail ⟨pre ++ r :: post, n⟩ e = some r := by
  unfold selectByEmail
  simp only
  rw [List.find?_append]
  have h1 : pre.find? (fun x => x.email == e) = none := by
    rw [List.find?_eq_none]
    intro x hx
    simp only [beq_iff_eq]
    exact hpre x hx
  rw [h1, List.find?_cons_of_pos]
  · rfl
  · simp [hr]

theorem mapRows_id (l : List Row) (f : Row → Row) (h : ∀ x ∈ l, f x = x) :
    l.map f = l := by
  induction l with
  | nil => rfl
  | cons a t ih =>
      simp only [List.map_cons]
      rw [h a (List.mem_cons_self a t), ih (fun x hx => h x (List.mem_cons_of_mem a hx))]

theorem get_email_input_accept (line : Str) (rest : List (Option Str))
    (h1 : pyStrip line ≠ []) (h2 : emailMatch (pyStrip line) = true) :
    get_email_input (some line :: rest) = .ok (pyStrip line, rest) := by
  simp only [get_email_input]
  simp [h1, h2]

theorem get_email_input_reject (line : Str) (rest : List (Option Str))
    (h : pyStrip line = [] ∨ emailMatch (pyStrip line) = false) :
    get_email_input (some line :: rest) = get_email_input rest := by
  simp only [get_email_input]
  rcases h with h | h
  · simp [h]
  · by_cases he : pyStrip line = []
    · simp [he]
    · simp [he, h]

theorem get_email_input_sound (s : List (Option Str)) (e : Str)
    (rest : List (Option Str)) (h : get_email_input s = .ok (e, rest)) :
    e ≠ [] ∧ emailMatch e = true := by
  induction s generalizing rest with
  | nil => simp [get_email_input] at h
  | cons a t ih =>
      cases a with
      | none => simp [get_email_input] at h
      | some line =>
          by_cases h1 : pyStrip line = []
          · rw [get_email_input_reject line t (Or.inl h1)] at h
            exact ih rest h
          · by_cases h2 : emailMatch (pyStrip line) = true
            · rw [get_email_input_accept line t h1 h2] at h
              cases h
              exact ⟨h1, h2⟩
            · rw [get_email_input_reject line t
                (Or.inr (Bool.eq_false_iff.2 h2))] at h
              exact ih rest h

theorem get_password_input_accept (pw : Str) (rest : List (Option Str))
    (h : 6 ≤ pw.length) :
    get_password_input (some pw :: some pw :: rest) = .ok (pw, rest) := by
  simp only [get_password_input]
  rw [if_neg (Nat.not_lt.mpr h)]
  simp

theorem get_password_input_reject_short (pw next : Str) (rest : List (Option Str))
    (h : pw.length < 6) :
    get_password_input (some pw :: some next :: rest) =
      get_password_input (some next :: rest) := by
  simp only [get_password_input]
  rw [if_pos h]

theorem get_password_input_reject_mismatch (pw confirm : Str)
    (rest : List (Option Str)) (h6 : 6 ≤ pw.length) (hne : pw ≠ confirm) :
    get_password_input (some pw :: some confirm :: rest) =
      get_password_input rest := by
  simp only [get_password_input]
  rw [if_neg (Nat.not_lt.mpr h6), if_neg hne]

theorem confirm_action_yes (rest : List (Option Str)) :
    confirm_action (some (("yes").toList) :: rest) = .ok (true, rest) := by
  rfl

theorem confirm_action_no (line : Str) (rest : List (Option Str))
    (h1 : pyLower (pyStrip line) ≠ ("yes").toList)
    (h2 : pyLower (pyStrip line) ≠ ("y").toList) :
    confirm_action (some line :: rest) = .ok (false, rest) := by
  simp only [confirm_action]
  have h3 : (pyLower (pyStrip line) == ("yes").toList ||
      pyLower (pyStrip line) == ("y").toList) = false := by
    simp only [Bool.or_eq_false_iff, beq_eq_false_iff_ne, ne_eq]
    exact ⟨h1, h2⟩
  rw [h3]

theorem get_password_input_sound (s : List (Option Str)) (p : Str)
    (rest : List (Option Str)) (h : get_password_input s = .ok (p, rest)) :
    6 ≤ p.length := by
  induction s using get_password_input.induct generalizing p rest with
  | case1 => simp [get_password_input] at h
  | case2 => simp [get_password_input] at h
  | case3 => simp [get_password_input] at h
  | case4 => simp [get_password_input] at h
  | case5 pw confirm rest2 hshort ih =>
      rw [get_password_input_reject_short pw confirm rest2 hshort] at h
      exact ih p rest h
  | case6 pw rest2 hlong =>
      rw [get_password_input_accept pw rest2 (Nat.le_of_not_lt hlong)] at h
      cases h
      exact Nat.le_of_not_lt hlong
  | case7 pw confirm rest2 hlong hne ih =>
      rw [get_password_input_reject_mismatch pw confirm rest2
        (Nat.le_of_not_lt hlong) hne] at h
      exact ih p rest h

theorem upsertPhase_closed (w : World) (db : Db) (stdin : List (Option Str))
    (e hsh : Str) : (upsertPhase w db stdin e hsh).closed = true := by
  unfold upsertPhase
  dsimp only
  repeat' split
  all_goals rfl

theorem upsertPhase_insert_ok (w : World) (db : Db) (nameLine e hsh : Str)
    (hAbs : ∀ r ∈ db.rows, r.email ≠ e) (hfs : w.dbFail = []) :
    upsertPhase w db [some nameLine] e hsh =
      ⟨.normal,
       ⟨db.rows ++
          [{ id := db.nextId, created_at := w.now, updated_at := w.now,
             email := e,
             name := if pyStrip nameLine = [] then defaultNameOf e
               else pyStrip nameLine,
             password_hash := hsh, role := ("admin").toList,
             is_active := true }],
        db.nextId + 1⟩,
       true, some db.nextId⟩ := by
  have hsel := selectByEmail_eq_none db e hAbs
  have hfin := selectByEmail_split db.rows []
    { id := db.nextId, created_at := w.now, updated_at := w.now,
      email := e,
      name := if pyStrip nameLine = [] then defaultNameOf e
        else pyStrip nameLine,
      password_hash := hsh, role := ("admin").toList, is_active := true }
    (db.nextId + 1) e hAbs rfl
  unfold upsertPhase
  rw [hfs]
  simp only [popFail, hsel, get_name_input, insertUser]
  simp only [Bool.false_eq_true, if_false]
  rw [hfin]

theorem updateByEmail_split (pre post : List Row) (r : Row) (n : Nat)
    (hsh role : Str) (active : Bool) (updated : Nat) (e : Str)
    (hpre : ∀ x ∈ pre, x.email ≠ e) (hr : r.email = e)
    (hpost : ∀ x ∈ post, x.email ≠ e) :
    updateByEmail ⟨pre ++ r :: post, n⟩ hsh role active updated e =
      ⟨pre ++
         { r with password_hash := hsh, role := role, is_active := active,
                  updated_at := updated } :: post, n⟩ := by
  unfold updateByEmail
  simp only [List.map_append, List.map_cons]
  rw [mapRows_id pre _ (fun x hx => by rw [if_neg (hpre x hx)]),
      mapRows_id post _ (fun x hx => by rw [if_neg (hpost x hx)]),
      if_pos hr]

theorem upsertPhase_update_ok (w : World) (pre post : List Row) (r : Row)
    (n : Nat) (stdin : List (Option Str)) (e hsh : Str)
    (hpre : ∀ x ∈ pre, x.email ≠ e) (hr : r.email = e)
    (hpost : ∀ x ∈ post, x.email ≠ e) (hfs : w.dbFail = []) :
    upsertPhase w ⟨pre ++ r :: post, n⟩ stdin e hsh =
      ⟨.normal,
       ⟨pre ++
          { r with password_hash := hsh, role := ("admin").toList,
                   is_active := true, updated_at := w.now } :: post, n⟩,
       true, none⟩ := by
  have hsel := selectByEmail_split pre post r n e hpre hr
  have hupd := updateByEmail_split pre post r n hsh (("admin").toList) true
    w.now e hpre hr hpost
  have hfin := selectByEmail_split pre post
    { r with password_hash := hsh, role := ("admin").toList,
             is_active := true, updated_at := w.now } n e hpre hr
  unfold upsertPhase
  rw [hfs]
  simp only [popFail, hsel, hupd]
  simp only [Bool.false_eq_true, if_false]
  rw [hfin]

theorem upsertPhase_fail_early (w : World) (db : Db) (nameLine e hsh : Str)
    (f1 f2 f3 : Bool) (restFs : List Bool)
    (hfs : w.dbFail = f1 :: f2 :: f3 :: restFs)
    (hor : (f1 || f2 || f3) = true) :
    (upsertPhase w db [some nameLine] e hsh).db = db ∧
    (upsertPhase w db [some nameLine] e hsh).outcome = .fatal := by
  unfold upsertPhase
  rw [hfs]
  simp only [popFail]
  cases f1
  · cases f2
    · cases f3
      · simp at hor
      · cases hsel : selectByEmail db e with
        | none => simp [hsel, get_name_input, insertUser]
        | some r => simp [hsel]
    · cases hsel : selectByEmail db e with
      | none => simp [hsel, get_name_input]
      | some r => simp [hsel]
  · simp

theorem upsertPhase_insert_reread_fail (w : World) (db : Db)
    (nameLine e hsh : Str) (hAbs : ∀ r ∈ db.rows, r.email ≠ e)
    (hfs : w.dbFail = [false, false, false, true]) :
    upsertPhase w db [some nameLine] e hsh =
      ⟨.fatal,
       ⟨db.rows ++
          [{ id := db.nextId, created_at := w.now, updated_at := w.now,
             email := e,
             name := if pyStrip nameLine = [] then defaultNameOf e
               else pyStrip nameLine,
             password_hash := hsh, role := ("admin").toList,
             is_active := true }],
        db.nextId + 1⟩,
       true, some db.nextId⟩ := by
  have hsel := selectByEmail_eq_none db e hAbs
  unfold upsertPhase
  rw [hfs]
  simp only [popFail, hsel, get_name_input, insertUser]
  simp

theorem upsertPhase_update_reread_fail (w : World) (pre post : List Row)
    (r : Row) (n : Nat) (stdin : List (Option Str)) (e hsh : Str)
    (hpre : ∀ x ∈ pre, x.email ≠ e) (hr : r.email = e)
    (hpost : ∀ x ∈ post, x.email ≠ e)
    (hfs : w.dbFail = [false, false, false, true]) :
    upsertPhase w ⟨pre ++ r :: post, n⟩ stdin e hsh =
      ⟨.fatal,
       ⟨pre ++
          { r with password_hash := hsh, role := ("admin").toList,
                   is_active := true, updated_at := w.now } :: post, n⟩,
       true, none⟩ := by
  have hsel := selectByEmail_split pre post r n e hpre hr
  have hupd := updateByEmail_split pre post r n hsh (("admin").toList) true
    w.now e hpre hr hpost
  unfold upsertPhase
  rw [hfs]
  simp only [popFail, hsel, hupd]
  simp

theorem main_ok_pipeline (db : Db) (eLine pw : Str) (nameEntry : Option Str)
    (now salt : Nat) (fs : List Bool)
    (hE1 : pyStrip eLine ≠ []) (hE2 : emailMatch (pyStrip eLine) = true)
    (hP : 6 ≤ pw.length) :
    script.main (okWorld eLine pw nameEntry now salt fs) db =
      upsertPhase (okWorld eLine pw nameEntry now salt fs) db [nameEntry]
        (pyStrip eLine) (bcrypt.hashpw pw salt) := by
  have hea := get_email_input_accept eLine [some (("yes").toList), nameEntry]
    hE1 hE2
  have hpa := get_password_input_accept pw ([] : List (Option Str)) hP
  have hca := confirm_action_yes [nameEntry]
  have hy : ("yes").toList = ['y', 'e', 's'] := rfl
  rw [hy] at hea hca
  simp [script.main, okWorld, hea, hpa, hca]

theorem main_decline (db : Db) (eLine pw resp : Str) (now salt : Nat)
    (fs : List Bool)
    (hE1 : pyStrip eLine ≠ []) (hE2 : emailMatch (pyStrip eLine) = true)
    (hP : 6 ≤ pw.length)
    (hr1 : pyLower (pyStrip resp) ≠ ("yes").toList)
    (hr2 : pyLower (pyStrip resp) ≠ ("y").toList) :
    script.main (declineWorld eLine pw resp now salt fs) db =
      ⟨.normal, db, false, none⟩ := by
  have hea := get_email_input_accept eLine [some resp] hE1 hE2
  have hpa := get_password_input_accept pw ([] : List (Option Str)) hP
  have hcn := confirm_action_no resp [] hr1 hr2
  simp [script.main, declineWorld, hea, hpa, hcn]

theorem main_conn_fail (w : World) (db : Db)
    (hEnv : w.envSet = true) (hConn : w.connOk = false) :
    script.main w db = ⟨.fatal, db, false, none⟩ := by
  simp [script.main, hEnv, hConn]

theorem main_email_interrupt (w : World) (db : Db) (rest : List (Option Str))
    (hEnv : w.envSet = true) (hConn : w.connOk = true)
    (hstdin : w.stdin = none :: rest) :
    script.main w db = ⟨.interrupted, db, false, none⟩ := by
  simp [script.main, hEnv, hConn, hstdin, get_email_input, haltOutcome]

theorem main_email_halt (w : World) (db : Db) (h : Halt)
    (hEnv : w.envSet = true) (hConn : w.connOk = true)
    (hemail : get_email_input w.stdin = .error h) :
    script.main w db = ⟨haltOutcome h, db, false, none⟩ := by
  simp [script.main, hEnv, hConn, hemail]

theorem main_password_halt (w : World) (db : Db) (h : Halt) (e : Str)
    (stdin2 : List (Option Str))
    (hEnv : w.envSet = true) (hConn : w.connOk = true)
    (hemail : get_email_input w.stdin = .ok (e, stdin2))
    (hpw : get_password_input w.masked = .error h) :
    script.main w db = ⟨haltOutcome h, db, false, none⟩ := by
  simp [script.main, hEnv, hConn, hemail, hpw]

theorem main_confirm_halt (w : World) (db : Db) (h : Halt) (e pw : Str)
    (stdin2 rest2 : List (Option Str))
    (hEnv : w.envSet = true) (hConn : w.connOk = true)
    (hemail : get_email_input w.stdin = .ok (e, stdin2))
    (hpw : get_password_input w.masked = .ok (pw, rest2))
    (hconf : confirm_action stdin2 = .error h) :
    script.main w db = ⟨haltOutcome h, db, false, none⟩ := by
  simp [script.main, hEnv, hConn, hemail, hpw, hconf]

theorem main_ok_pipeline_stdin (db : Db) (eLine pw : Str)
    (nameStdin : List (Option Str)) (now salt : Nat) (fs : List Bool)
    (hE1 : pyStrip eLine ≠ []) (hE2 : emailMatch (pyStrip eLine) = true)
    (hP : 6 ≤ pw.length) :
    script.main (okWorldStdin eLine pw nameStdin now salt fs) db =
      upsertPhase (okWorldStdin eLine pw nameStdin now salt fs) db nameStdin
        (pyStrip eLine) (bcrypt.hashpw pw salt) := by
  have hea := get_email_input_accept eLine
    (some (("yes").toList) :: nameStdin) hE1 hE2
  have hpa := get_password_input_accept pw ([] : List (Option Str)) hP
  have hca := confirm_action_yes nameStdin
  have hy : ("yes").toList = ['y', 'e', 's'] := rfl
  rw [hy] at hea hca
  simp [script.main, okWorldStdin, hea, hpa, hca]

theorem bcrypt.takeWhile_hash (pw : Str) (salt : Nat) :
    (List.replicate salt 'x' ++ '$' :: pw).takeWhile (fun c => c == 'x') =
      List.replicate salt 'x' := by
  induction salt with
  | zero => simp [List.takeWhile_cons]
  | succ n ih => simp [List.replicate_succ, List.takeWhile_cons, ih]

theorem bcrypt.checkpw_hashpw (pw : Str) (salt : Nat) :
    bcrypt.checkpw pw (bcrypt.hashpw pw salt) = true := by
  unfold bcrypt.checkpw bcrypt.saltOf bcrypt.hashpw
  rw [bcrypt.takeWhile_hash pw salt, List.length_replicate]
  simp

theorem processExit_eq_zero_iff (r : RunResult) :
    processExit r = 0 ↔ r.outcome = Outcome.normal := by
  cases h : r.outcome <;> simp [processExit, h]

theorem processExit_of_outcome (r : RunResult) (h : r.outcome ≠ Outcome.normal) :
    processExit r = 1 := by
  cases ho : r.outcome
  · exact absurd ho h
  · simp [processExit, ho]
  · simp [processExit, ho]
  · simp [processExit, ho]

theorem upsertPhase_stdin_irrel (w : World) (s : List (Option Str)) (db : Db)
    (st : List (Option Str)) (e hsh : Str) :
    upsertPhase { w with stdin := s } db st e hsh = upsertPhase w db st e hsh :=
  rfl

theorem upsertPhase_eq_of_fields (w w' : World) (db : Db)
    (st : List (Option Str)) (e hsh : Str)
    (h1 : w.dbFail = w'.dbFail) (h2 : w.now = w'.now) :
    upsertPhase w db st e hsh = upsertPhase w' db st e hsh := by
  unfold upsertPhase
  rw [h1, h2]

/-! Claim theorems. -/

/-- C1 (counterexample): in the concrete confirmed run that creates the
account a@b.c in an empty store, the single inserted row carries the role
string admin, which differs from the string administrator; so the claim
that the new row has role equal to "administrator" is false on the code
(line 80 of the script passes the literal admin). -/
theorem C1_role_admin_not_administrator :
    ((script.main (okWorld (("a@b.c").toList) (("secret").toList)
        (some (("Ann").toList)) 7 2 []) ⟨[], 1⟩).db.rows.map
      (fun r => r.role)) = [("admin").toList] ∧
    ("admin").toList ≠ ("administrator").toList := by
  decide

/-- C1 (amended): for every email not present in the users table, a
confirmed run inserts exactly one new row whose role equals admin (the
administrator role value of the store), whose is_active flag is true,
whose created_at and updated_at fields are both the current clock value,
whose name is the provided stripped name or the defaulted one, and whose
password hash verifies against the submitted password; the generated
identifier (the next identifier of the store) is captured. -/
theorem C1_insert_creates_admin_row (db : Db) (eLine pw nameLine : Str)
    (now salt : Nat)
    (hE1 : pyStrip eLine ≠ []) (hE2 : emailMatch (pyStrip eLine) = true)
    (hP : 6 ≤ pw.length)
    (hAbs : ∀ r ∈ db.rows, r.email ≠ pyStrip eLine) :
    script.main (okWorld eLine pw (some nameLine) now salt []) db =
      ⟨.normal,
       ⟨db.rows ++
          [{ id := db.nextId, created_at := now, updated_at := now,
             email := pyStrip eLine,
             name := if pyStrip nameLine = [] then
                 defaultNameOf (pyStrip eLine)
               else pyStrip nameLine,
             password_hash := bcrypt.hashpw pw salt,
             role := ("admin").toList, is_active := true }],
        db.nextId + 1⟩,
       true, some db.nextId⟩ ∧
    bcrypt.checkpw pw (bcrypt.hashpw pw salt) = true := by
  constructor
  · rw [main_ok_pipeline db eLine pw (some nameLine) now salt [] hE1 hE2 hP]
    exact upsertPhase_insert_ok _ db nameLine (pyStrip eLine)
      (bcrypt.hashpw pw salt) hAbs rfl
  · exact bcrypt.checkpw_hashpw pw salt

/-- C1 (witness): the amended insert theorem applied at the concrete run
that creates a@b.c with password secret and name Ann in an empty store. -/
theorem C1_insert_creates_admin_row_witness :
    script.main (okWorld (("a@b.c").toList) (("secret").toList)
        (some (("Ann").toList)) 7 2 []) ⟨[], 1⟩ =
      ⟨.normal,
       ⟨[{ id := 1, created_at := 7, updated_at := 7,
           email := ("a@b.c").toList, name := ("Ann").toList,
           password_hash := bcrypt.hashpw (("secret").toList) 2,
           role := ("admin").toList, is_active := true }], 2⟩,
       true, some 1⟩ ∧
    bcrypt.checkpw (("secret").toList)
      (bcrypt.hashpw (("secret").toList) 2) = true := by
  have h := C1_insert_creates_admin_row ⟨[], 1⟩ (("a@b.c").toList)
    (("secret").toList) (("Ann").toList) 7 2
    (by decide) (by decide) (by decide) (by decide)
  exact h

/-- C2: for every email already present in the users table (uniquely, per
the store invariant), a confirmed run rewrites exactly the matching row,
setting its password_hash to the new hash, its role to admin, its
is_active flag to true and its updated_at field to the clock, while the
row's id, created_at, email and name fields and every other row of the
table are left unchanged and no row is added. -/
theorem C2_update_touches_single_row (pre post : List Row) (r : Row) (n : Nat)
    (eLine pw : Str) (nameEntry : Option Str) (now salt : Nat)
    (hE1 : pyStrip eLine ≠ []) (hE2 : emailMatch (pyStrip eLine) = true)
    (hP : 6 ≤ pw.length)
    (hr : r.email = pyStrip eLine)
    (hpre : ∀ x ∈ pre, x.email ≠ pyStrip eLine)
    (hpost : ∀ x ∈ post, x.email ≠ pyStrip eLine) :
    script.main (okWorld eLine pw nameEntry now salt []) ⟨pre ++ r :: post, n⟩ =
      ⟨.normal,
       ⟨pre ++
          { r with password_hash := bcrypt.hashpw pw salt,
                   role := ("admin").toList, is_active := true,
                   updated_at := now } :: post, n⟩,
       true, none⟩ := by
  rw [main_ok_pipeline ⟨pre ++ r :: post, n⟩ eLine pw nameEntry now salt []
    hE1 hE2 hP]
  exact upsertPhase_update_ok _ pre post r n [nameEntry] (pyStrip eLine)
    (bcrypt.hashpw pw salt) hpre hr hpost rfl

/-- C2 (witness): the update theorem applied at the concrete run that
resets the existing account a@b.c, showing the name Bob and the other
rows survive unchanged. -/
theorem C2_update_touches_single_row_witness :
    script.main (okWorld (("a@b.c").toList) (("secret").toList)
        (some (("Ann").toList)) 7 2 [])
      ⟨[{ id := 1, created_at := 0, updated_at := 0,
          email := ("z@b.c").toList, name := ("Zoe").toList,
          password_hash := ("h1").toList, role := ("user").toList,
          is_active := true },
        { id := 2, created_at := 3, updated_at := 4,
          email := ("a@b.c").toList, name := ("Bob").toList,
          password_hash := ("h2").toList, role := ("user").toList,
          is_active := false }], 3⟩ =
      ⟨.normal,
       ⟨[{ id := 1, created_at := 0, updated_at := 0,
           email := ("z@b.c").toList, name := ("Zoe").toList,
           password_hash := ("h1").toList, role := ("user").toList,
           is_active := true },
         { id := 2, created_at := 3, updated_at := 7,
           email := ("a@b.c").toList, name := ("Bob").toList,
           password_hash := bcrypt.hashpw (("secret").toList) 2,
           role := ("admin").toList, is_active := true }], 3⟩,
       true, none⟩ := by
  have h := C2_update_touches_single_row
    [{ id := 1, created_at := 0, updated_at := 0,
       email := ("z@b.c").toList, name := ("Zoe").toList,
       password_hash := ("h1").toList, role := ("user").toList,
       is_active := true }] []
    { id := 2, created_at := 3, updated_at := 4,
      email := ("a@b.c").toList, name := ("Bob").toList,
      password_hash := ("h2").toList, role := ("user").toList,
      is_active := false } 3
    (("a@b.c").toList) (("secret").toList) (some (("Ann").toList)) 7 2
    (by decide) (by decide) (by decide) (by decide) (by decide) (by decide)
  exact h

/-- C4: for every confirmation response whose stripped, lowercased form is
neither yes nor y, the run aborts before any database mutation: the final
store equals the initial store, no insert and no update happen, the run
ends by a plain return (exit 0) and the cleanup block is never reached. -/
theorem C4_decline_leaves_store_unchanged (db : Db) (eLine pw resp : Str)
    (now salt : Nat) (fs : List Bool)
    (hE1 : pyStrip eLine ≠ []) (hE2 : emailMatch (pyStrip eLine) = true)
    (hP : 6 ≤ pw.length)
    (hr1 : pyLower (pyStrip resp) ≠ ("yes").toList)
    (hr2 : pyLower (pyStrip resp) ≠ ("y").toList) :
    script.main (declineWorld eLine pw resp now salt fs) db =
      ⟨.normal, db, false, none⟩ :=
  main_decline db eLine pw resp now salt fs hE1 hE2 hP hr1 hr2

/-- C4 (witness): a declined run with reply nope leaves a one-row store
exactly as it was. -/
theorem C4_decline_leaves_store_unchanged_witness :
    script.main (declineWorld (("a@b.c").toList) (("secret").toList)
        (("nope").toList) 7 2 [])
      ⟨[{ id := 1, created_at := 0, updated_at := 0,
          email := ("a@b.c").toList, name := ("Bob").toList,
          password_hash := ("h2").toList, role := ("user").toList,
          is_active := false }], 2⟩ =
      ⟨.normal,
       ⟨[{ id := 1, created_at := 0, updated_at := 0,
           email := ("a@b.c").toList, name := ("Bob").toList,
           password_hash := ("h2").toList, role := ("user").toList,
           is_active := false }], 2⟩,
       false, none⟩ := by
  have h := C4_decline_leaves_store_unchanged
    ⟨[{ id := 1, created_at := 0, updated_at := 0,
        email := ("a@b.c").toList, name := ("Bob").toList,
        password_hash := ("h2").toList, role := ("user").toList,
        is_active := false }], 2⟩
    (("a@b.c").toList) (("secret").toList) (("nope").toList) 7 2 []
    (by decide) (by decide) (by decide) (by decide) (by decide)
  exact h

/-- C3: if any database statement among the lookup SELECT, the INSERT or
UPDATE, or the COMMIT raises during a confirmed run, the transaction is
rolled back so the committed store is exactly the initial store, the run
ends through the except handler as a fatal exit, and the process exit
status is 1 (non-zero). -/
theorem C3_db_error_leaves_store_unchanged (db : Db) (eLine pw nameLine : Str)
    (now salt : Nat) (f1 f2 f3 : Bool) (restFs : List Bool)
    (hE1 : pyStrip eLine ≠ []) (hE2 : emailMatch (pyStrip eLine) = true)
    (hP : 6 ≤ pw.length) (hor : (f1 || f2 || f3) = true) :
    (script.main (okWorld eLine pw (some nameLine) now salt
        (f1 :: f2 :: f3 :: restFs)) db).db = db ∧
    (script.main (okWorld eLine pw (some nameLine) now salt
        (f1 :: f2 :: f3 :: restFs)) db).outcome = .fatal ∧
    processExit (script.main (okWorld eLine pw (some nameLine) now salt
        (f1 :: f2 :: f3 :: restFs)) db) = 1 := by
  rw [main_ok_pipeline db eLine pw (some nameLine) now salt
    (f1 :: f2 :: f3 :: restFs) hE1 hE2 hP]
  have h := upsertPhase_fail_early
    (okWorld eLine pw (some nameLine) now salt (f1 :: f2 :: f3 :: restFs)) db
    nameLine (pyStrip eLine) (bcrypt.hashpw pw salt) f1 f2 f3 restFs rfl hor
  refine ⟨h.1, h.2, ?_⟩
  exact processExit_of_outcome _ (by rw [h.2]; intro hn; cases hn)

/-- C3 (witness): a COMMIT failure during the insert run for a@b.c in an
empty store leaves the store empty and exits with status 1. -/
theorem C3_db_error_leaves_store_unchanged_witness :
    (script.main (okWorld (("a@b.c").toList) (("secret").toList)
        (some (("Ann").toList)) 7 2 [false, false, true]) ⟨[], 1⟩).db =
      (⟨[], 1⟩ : Db) ∧
    (script.main (okWorld (("a@b.c").toList) (("secret").toList)
        (some (("Ann").toList)) 7 2 [false, false, true]) ⟨[], 1⟩).outcome =
      Outcome.fatal ∧
    processExit (script.main (okWorld (("a@b.c").toList) (("secret").toList)
        (some (("Ann").toList)) 7 2 [false, false, true]) ⟨[], 1⟩) = 1 := by
  have h := C3_db_error_leaves_store_unchanged ⟨[], 1⟩ (("a@b.c").toList)
    (("secret").toList) (("Ann").toList) 7 2 false false true []
    (by decide) (by decide) (by decide) (by decide)
  exact h

/-- C5 (counterexample): declining the confirmation prompt with the reply
no makes main return normally, and the process then terminates with exit
status 0, contradicting the claim that user-initiated cancellation yields
a non-zero exit status. -/
theorem C5_decline_exits_zero :
    processExit (script.main (declineWorld (("a@b.c").toList)
        (("secret").toList) (("no").toList) 7 2 []) ⟨[], 1⟩) = 0 ∧
    (script.main (declineWorld (("a@b.c").toList) (("secret").toList)
        (("no").toList) 7 2 []) ⟨[], 1⟩).outcome = Outcome.normal := by
  decide

/-- C5 (amended): the process exit status is 0 exactly when main returns
normally, which happens both on a successful completed run and on a
declined confirmation (the line-54 return); the status is 1 (non-zero) on
connection failure, on a database error during the upsert, and on an
interrupt at a prompt. -/
theorem C5_exit_status_partition :
    (∀ (w : World) (db : Db),
        processExit (script.main w db) = 0 ↔
          (script.main w db).outcome = Outcome.normal) ∧
    (∀ (db : Db) (eLine pw resp : Str) (now salt : Nat) (fs : List Bool),
        pyStrip eLine ≠ [] → emailMatch (pyStrip eLine) = true →
        6 ≤ pw.length →
        pyLower (pyStrip resp) ≠ ("yes").toList →
        pyLower (pyStrip resp) ≠ ("y").toList →
        processExit (script.main (declineWorld eLine pw resp now salt fs) db)
          = 0) ∧
    (∀ (w : World) (db : Db), w.envSet = true → w.connOk = false →
        processExit (script.main w db) = 1) ∧
    (∀ (db : Db) (eLine pw nameLine : Str) (now salt : Nat)
        (f1 f2 f3 : Bool) (restFs : List Bool),
        pyStrip eLine ≠ [] → emailMatch (pyStrip eLine) = true →
        6 ≤ pw.length → (f1 || f2 || f3) = true →
        processExit (script.main (okWorld eLine pw (some nameLine) now salt
          (f1 :: f2 :: f3 :: restFs)) db) = 1) ∧
    (∀ (w : World) (db : Db) (rest : List (Option Str)),
        w.envSet = true → w.connOk = true → w.stdin = none :: rest →
        processExit (script.main w db) = 1) := by
  refine ⟨fun w db => processExit_eq_zero_iff _, ?_, ?_, ?_, ?_⟩
  · intro db eLine pw resp now salt fs hE1 hE2 hP hr1 hr2
    rw [main_decline db eLine pw resp now salt fs hE1 hE2 hP hr1 hr2]
    rfl
  · intro w db hEnv hConn
    rw [main_conn_fail w db hEnv hConn]
    rfl
  · intro db eLine pw nameLine now salt f1 f2 f3 restFs hE1 hE2 hP hor
    rw [main_ok_pipeline db eLine pw (some nameLine) now salt
      (f1 :: f2 :: f3 :: restFs) hE1 hE2 hP]
    have h := upsertPhase_fail_early
      (okWorld eLine pw (some nameLine) now salt (f1 :: f2 :: f3 :: restFs))
      db nameLine (pyStrip eLine) (bcrypt.hashpw pw salt) f1 f2 f3 restFs
      rfl hor
    exact processExit_of_outcome _ (by rw [h.2]; intro hn; cases hn)
  · intro w db rest hEnv hConn hstdin
    rw [main_email_interrupt w db rest hEnv hConn hstdin]
    rfl

/-- C5 (witness): the exit-status partition applied at concrete runs: a
declined run exits 0; a run against an unreachable database exits 1; a
run whose COMMIT fails exits 1; a run interrupted at the email prompt
exits 1. -/
theorem C5_exit_status_partition_witness :
    processExit (script.main (declineWorld (("a@b.c").toList)
        (("secret").toList) (("no").toList) 7 2 []) ⟨[], 1⟩) = 0 ∧
    processExit (script.main
        { envSet := true, connOk := false, stdin := [], masked := [],
          now := 7, salt := 2, dbFail := [] } ⟨[], 1⟩) = 1 ∧
    processExit (script.main (okWorld (("a@b.c").toList) (("secret").toList)
        (some (("Ann").toList)) 7 2 [false, false, true]) ⟨[], 1⟩) = 1 ∧
    processExit (script.main
        { envSet := true, connOk := true, stdin := [none], masked := [],
          now := 7, salt := 2, dbFail := [] } ⟨[], 1⟩) = 1 := by
  refine ⟨?_, ?_, ?_, ?_⟩
  · exact C5_exit_status_partition.2.1 ⟨[], 1⟩ (("a@b.c").toList)
      (("secret").toList) (("no").toList) 7 2 []
      (by decide) (by decide) (by decide) (by decide) (by decide)
  · exact C5_exit_status_partition.2.2.1
      { envSet := true, connOk := false, stdin := [], masked := [],
        now := 7, salt := 2, dbFail := [] } ⟨[], 1⟩ rfl rfl
  · exact C5_exit_status_partition.2.2.2.1 ⟨[], 1⟩ (("a@b.c").toList)
      (("secret").toList) (("Ann").toList) 7 2 false false true []
      (by decide) (by decide) (by decide) (by decide)
  · exact C5_exit_status_partition.2.2.2.2
      { envSet := true, connOk := true, stdin := [none], masked := [],
        now := 7, salt := 2, dbFail := [] } ⟨[], 1⟩ [] rfl rfl rfl

/-- C6 (counterexample): on the user-cancellation exit path (confirmation
declined with the reply no) the process terminates without ever executing
the cleanup block of lines 132 to 134 — the line-54 return sits outside
the try/finally — so the claim that the session and cursor are closed via
the single cleanup path on every exit path is false on the code. -/
theorem C6_decline_skips_cleanup :
    (script.main (declineWorld (("a@b.c").toList) (("secret").toList)
        (("no").toList) 7 2 []) ⟨[], 1⟩).closed = false ∧
    (script.main (declineWorld (("a@b.c").toList) (("secret").toList)
        (("no").toList) 7 2 []) ⟨[], 1⟩).outcome = Outcome.normal := by
  decide

/-- C6 (amended): the cleanup block of lines 132 to 134 closes the cursor
and the session on every exit of the upsert/report phase — success, any
database error, and an end-of-input or interrupt at the name prompt —
but it is not reached on the user-cancellation path, on an interrupt or
end-of-input at the email, password or confirmation prompts, or on
connection failure; on those paths the handles are released only by
process teardown. -/
theorem C6_cleanup_covers_upsert_phase_only :
    (∀ (db : Db) (eLine pw : Str) (nameStdin : List (Option Str))
        (now salt : Nat) (fs : List Bool),
        pyStrip eLine ≠ [] → emailMatch (pyStrip eLine) = true →
        6 ≤ pw.length →
        (script.main (okWorldStdin eLine pw nameStdin now salt fs) db).closed
          = true) ∧
    (∀ (db : Db) (eLine pw resp : Str) (now salt : Nat) (fs : List Bool),
        pyStrip eLine ≠ [] → emailMatch (pyStrip eLine) = true →
        6 ≤ pw.length →
        pyLower (pyStrip resp) ≠ ("yes").toList →
        pyLower (pyStrip resp) ≠ ("y").toList →
        (script.main (declineWorld eLine pw resp now salt fs) db).closed
          = false) ∧
    (∀ (w : World) (db : Db),
        w.envSet = true → w.connOk = true →
        (w.stdin = [] ∨ ∃ rest, w.stdin = none :: rest) →
        (script.main w db).closed = false) ∧
    (∀ (db : Db) (eLine : Str) (stdin2 masked : List (Option Str))
        (now salt : Nat) (fs : List Bool),
        pyStrip eLine ≠ [] → emailMatch (pyStrip eLine) = true →
        (masked = [] ∨ ∃ rest, masked = none :: rest) →
        (script.main ⟨true, true, some eLine :: stdin2, masked, now, salt, fs⟩
          db).closed = false) ∧
    (∀ (db : Db) (eLine pw : Str) (stdinC : List (Option Str))
        (now salt : Nat) (fs : List Bool),
        pyStrip eLine ≠ [] → emailMatch (pyStrip eLine) = true →
        6 ≤ pw.length →
        (stdinC = [] ∨ ∃ rest, stdinC = none :: rest) →
        (script.main ⟨true, true, some eLine :: stdinC,
          [some pw, some pw], now, salt, fs⟩ db).closed = false) ∧
    (∀ (w : World) (db : Db), w.envSet = true → w.connOk = false →
        (script.main w db).closed = false) := by
  refine ⟨?_, ?_, ?_, ?_, ?_, ?_⟩
  · intro db eLine pw nameStdin now salt fs hE1 hE2 hP
    rw [main_ok_pipeline_stdin db eLine pw nameStdin now salt fs hE1 hE2 hP]
    exact upsertPhase_closed _ db nameStdin (pyStrip eLine)
      (bcrypt.hashpw pw salt)
  · intro db eLine pw resp now salt fs hE1 hE2 hP hr1 hr2
    rw [main_decline db eLine pw resp now salt fs hE1 hE2 hP hr1 hr2]
  · intro w db hEnv hConn hcase
    rcases hcase with h | ⟨rest, h⟩
    · rw [main_email_halt w db .eofError hEnv hConn (by rw [h]; rfl)]
    · rw [main_email_halt w db .interrupted hEnv hConn (by rw [h]; rfl)]
  · intro db eLine stdin2 masked now salt fs hE1 hE2 hcase
    have hemail : get_email_input
        ((⟨true, true, some eLine :: stdin2, masked, now, salt, fs⟩ :
          World).stdin) = .ok (pyStrip eLine, stdin2) :=
      get_email_input_accept eLine stdin2 hE1 hE2
    rcases hcase with h | ⟨rest, h⟩
    · rw [main_password_halt _ db .eofError (pyStrip eLine) stdin2 rfl rfl
        hemail (by rw [show (⟨true, true, some eLine :: stdin2, masked, now,
          salt, fs⟩ : World).masked = masked from rfl, h]; rfl)]
    · rw [main_password_halt _ db .interrupted (pyStrip eLine) stdin2 rfl rfl
        hemail (by rw [show (⟨true, true, some eLine :: stdin2, masked, now,
          salt, fs⟩ : World).masked = masked from rfl, h]; rfl)]
  · intro db eLine pw stdinC now salt fs hE1 hE2 hP hcase
    have hemail : get_email_input
        ((⟨true, true, some eLine :: stdinC, [some pw, some pw], now, salt,
          fs⟩ : World).stdin) = .ok (pyStrip eLine, stdinC) :=
      get_email_input_accept eLine stdinC hE1 hE2
    have hpw : get_password_input
        ((⟨true, true, some eLine :: stdinC, [some pw, some pw], now, salt,
          fs⟩ : World).masked) = .ok (pw, []) :=
      get_password_input_accept pw [] hP
    rcases hcase with h | ⟨rest, h⟩
    · rw [main_confirm_halt _ db .eofError (pyStrip eLine) pw stdinC [] rfl
        rfl hemail hpw (by rw [h]; rfl)]
    · rw [main_confirm_halt _ db .interrupted (pyStrip eLine) pw stdinC []
        rfl rfl hemail hpw (by rw [h]; rfl)]
  · intro w db hEnv hConn
    rw [main_conn_fail w db hEnv hConn]

/-- C6 (witness): cleanup coverage at concrete runs.  The cleanup block
runs on a successful insert, on a COMMIT failure, on end-of-input at the
name prompt and on an interrupt at the name prompt; it is skipped on a
declined confirmation, on end-of-input or interrupt at the email prompt,
at the password prompt and at the confirmation prompt, and on a failed
connection. -/
theorem C6_cleanup_covers_upsert_phase_only_witness :
    (script.main (okWorldStdin (("a@b.c").toList) (("secret").toList)
        [some (("Ann").toList)] 7 2 []) ⟨[], 1⟩).closed = true ∧
    (script.main (okWorldStdin (("a@b.c").toList) (("secret").toList)
        [some (("Ann").toList)] 7 2 [false, false, true]) ⟨[], 1⟩).closed
      = true ∧
    (script.main (okWorldStdin (("a@b.c").toList) (("secret").toList)
        [] 7 2 []) ⟨[], 1⟩).closed = true ∧
    (script.main (okWorldStdin (("a@b.c").toList) (("secret").toList)
        [none] 7 2 []) ⟨[], 1⟩).closed = true ∧
    (script.main (declineWorld (("a@b.c").toList) (("secret").toList)
        (("nah").toList) 7 2 []) ⟨[], 1⟩).closed = false ∧
    (script.main
        { envSet := true, connOk := true, stdin := [], masked := [],
          now := 7, salt := 2, dbFail := [] } ⟨[], 1⟩).closed = false ∧
    (script.main
        { envSet := true, connOk := true, stdin := [none], masked := [],
          now := 7, salt := 2, dbFail := [] } ⟨[], 1⟩).closed = false ∧
    (script.main
        { envSet := true, connOk := true,
          stdin := [some (("a@b.c").toList)], masked := [],
          now := 7, salt := 2, dbFail := [] } ⟨[], 1⟩).closed = false ∧
    (script.main
        { envSet := true, connOk := true,
          stdin := [some (("a@b.c").toList)], masked := [none],
          now := 7, salt := 2, dbFail := [] } ⟨[], 1⟩).closed = false ∧
    (script.main
        { envSet := true, connOk := true,
          stdin := [some (("a@b.c").toList)],
          masked := [some (("secret").toList), some (("secret").toList)],
          now := 7, salt := 2, dbFail := [] } ⟨[], 1⟩).closed = false ∧
    (script.main
        { envSet := true, connOk := true,
          stdin := [some (("a@b.c").toList), none],
          masked := [some (("secret").toList), some (("secret").toList)],
          now := 7, salt := 2, dbFail := [] } ⟨[], 1⟩).closed = false ∧
    (script.main
        { envSet := true, connOk := false, stdin := [], masked := [],
          now := 7, salt := 2, dbFail := [] } ⟨[], 1⟩).closed = false := by
  refine ⟨?_, ?_, ?_, ?_, ?_, ?_, ?_, ?_, ?_, ?_, ?_, ?_⟩
  · exact C6_cleanup_covers_upsert_phase_only.1 ⟨[], 1⟩ (("a@b.c").toList)
      (("secret").toList) [some (("Ann").toList)] 7 2 []
      (by decide) (by decide) (by decide)
  · exact C6_cleanup_covers_upsert_phase_only.1 ⟨[], 1⟩ (("a@b.c").toList)
      (("secret").toList) [some (("Ann").toList)] 7 2 [false, false, true]
      (by decide) (by decide) (by decide)
  · exact C6_cleanup_covers_upsert_phase_only.1 ⟨[], 1⟩ (("a@b.c").toList)
      (("secret").toList) [] 7 2 []
      (by decide) (by decide) (by decide)
  · exact C6_cleanup_covers_upsert_phase_only.1 ⟨[], 1⟩ (("a@b.c").toList)
      (("secret").toList) [none] 7 2 []
      (by decide) (by decide) (by decide)
  · exact C6_cleanup_covers_upsert_phase_only.2.1 ⟨[], 1⟩ (("a@b.c").toList)
      (("secret").toList) (("nah").toList) 7 2 []
      (by decide) (by decide) (by decide) (by decide) (by decide)
  · exact C6_cleanup_covers_upsert_phase_only.2.2.1
      { envSet := true, connOk := true, stdin := [], masked := [],
        now := 7, salt := 2, dbFail := [] } ⟨[], 1⟩ rfl rfl (Or.inl rfl)
  · exact C6_cleanup_covers_upsert_phase_only.2.2.1
      { envSet := true, connOk := true, stdin := [none], masked := [],
        now := 7, salt := 2, dbFail := [] } ⟨[], 1⟩ rfl rfl
      (Or.inr ⟨[], rfl⟩)
  · exact C6_cleanup_covers_upsert_phase_only.2.2.2.1 ⟨[], 1⟩
      (("a@b.c").toList) [] [] 7 2 []
      (by decide) (by decide) (Or.inl rfl)
  · exact C6_cleanup_covers_upsert_phase_only.2.2.2.1 ⟨[], 1⟩
      (("a@b.c").toList) [] [none] 7 2 []
      (by decide) (by decide) (Or.inr ⟨[], rfl⟩)
  · exact C6_cleanup_covers_upsert_phase_only.2.2.2.2.1 ⟨[], 1⟩
      (("a@b.c").toList) (("secret").toList) [] 7 2 []
      (by decide) (by decide) (by decide) (Or.inl rfl)
  · exact C6_cleanup_covers_upsert_phase_only.2.2.2.2.1 ⟨[], 1⟩
      (("a@b.c").toList) (("secret").toList) [none] 7 2 []
      (by decide) (by decide) (by decide) (Or.inr ⟨[], rfl⟩)
  · exact C6_cleanup_covers_upsert_phase_only.2.2.2.2.2
      { envSet := true, connOk := false, stdin := [], masked := [],
        now := 7, salt := 2, dbFail := [] } ⟨[], 1⟩ rfl rfl

/-- C7: the email collector returns only nonempty strings matching the
local at domain dot tld pattern of the line-144 regular expression; every
line that strips to empty or fails the pattern is skipped, so the
collector just moves on to the next line; and inserting such a rejected
line in front of stdin leaves the whole run of the program — in
particular the store — unchanged. -/
theorem C7_email_collector_validates :
    (∀ (s : List (Option Str)) (e : Str) (rest : List (Option Str)),
        get_email_input s = .ok (e, rest) →
          e ≠ [] ∧ emailMatch e = true) ∧
    (∀ (line : Str) (rest : List (Option Str)),
        pyStrip line = [] ∨ emailMatch (pyStrip line) = false →
        get_email_input (some line :: rest) = get_email_input rest) ∧
    (∀ (w : World) (db : Db) (line : Str),
        w.envSet = true →
        pyStrip line = [] ∨ emailMatch (pyStrip line) = false →
        script.main { w with stdin := some line :: w.stdin } db =
          script.main w db) := by
  refine ⟨get_email_input_sound, get_email_input_reject, ?_⟩
  intro w db line hEnv hbad
  have hrej := get_email_input_reject line w.stdin hbad
  have hup : ∀ (st : List (Option Str)) (e hsh : Str),
      upsertPhase ⟨true, w.connOk, some line :: w.stdin, w.masked, w.now,
        w.salt, w.dbFail⟩ db st e hsh = upsertPhase w db st e hsh :=
    fun st e hsh => upsertPhase_eq_of_fields _ w db st e hsh rfl rfl
  simp [script.main, hEnv, hrej, hup]

/-- C7 (witness): the collector rejects the empty line and the malformed
address nodot at nodomain, then accepts a@b.c; prepending the malformed
line to a declined run changes nothing. -/
theorem C7_email_collector_validates_witness :
    ((("a@b.c").toList ≠ [] ∧ emailMatch (("a@b.c").toList) = true) ∧
      get_email_input [some (("").toList), some (("nodot@nodomain").toList),
        some (("a@b.c").toList)] =
        .ok ((("a@b.c").toList), [])) ∧
    script.main
        { envSet := true, connOk := true,
          stdin := some (("nodot@nodomain").toList) ::
            (declineWorld (("a@b.c").toList) (("secret").toList)
              (("no").toList) 7 2 []).stdin,
          masked := [some (("secret").toList), some (("secret").toList)],
          now := 7, salt := 2, dbFail := [] } ⟨[], 1⟩ =
      script.main (declineWorld (("a@b.c").toList) (("secret").toList)
        (("no").toList) 7 2 []) ⟨[], 1⟩ := by
  refine ⟨⟨?_, ?_⟩, ?_⟩
  · exact C7_email_collector_validates.1
      [some (("").toList), some (("nodot@nodomain").toList),
        some (("a@b.c").toList)] (("a@b.c").toList) [] (by rfl)
  · have h1 := C7_email_collector_validates.2.1 (("").toList)
      [some (("nodot@nodomain").toList), some (("a@b.c").toList)]
      (Or.inl (by decide))
    have h2 := C7_email_collector_validates.2.1 (("nodot@nodomain").toList)
      [some (("a@b.c").toList)] (Or.inr (by decide))
    rw [h1, h2]
    rfl
  · exact C7_email_collector_validates.2.2
      (declineWorld (("a@b.c").toList) (("secret").toList)
        (("no").toList) 7 2 []) ⟨[], 1⟩ (("nodot@nodomain").toList)
      rfl (Or.inr (by decide))

/-- C8: the password collector returns a password only when it has at
least six characters and the immediately following confirmation entry on
the masked stream equals it exactly; a too-short entry is rejected and the
loop re-prompts treating the next masked line as a fresh password, and a
mismatched confirmation discards both entries and re-prompts.  Password
entry is modelled on the separate masked getpass stream, which main never
echoes or mixes with the plain stdin stream. -/
theorem C8_password_collector_validates :
    (∀ (s : List (Option Str)) (p : Str) (rest : List (Option Str)),
        get_password_input s = .ok (p, rest) → 6 ≤ p.length) ∧
    (∀ (pw next : Str) (rest : List (Option Str)), pw.length < 6 →
        get_password_input (some pw :: some next :: rest) =
          get_password_input (some next :: rest)) ∧
    (∀ (pw confirm : Str) (rest : List (Option Str)),
        6 ≤ pw.length → pw ≠ confirm →
        get_password_input (some pw :: some confirm :: rest) =
          get_password_input rest) ∧
    (∀ (pw : Str) (rest : List (Option Str)), 6 ≤ pw.length →
        get_password_input (some pw :: some pw :: rest) = .ok (pw, rest)) :=
  ⟨get_password_input_sound, get_password_input_reject_short,
   get_password_input_reject_mismatch, get_password_input_accept⟩

/-- C8 (witness): the collector skips the five-character entry abcde,
skips a mismatched pair, accepts a twice-entered password of length six
or more, and every accepted password has length at least six. -/
theorem C8_password_collector_validates_witness :
    get_password_input [some (("abcde").toList), some (("secret").toList),
        some (("secret").toList)] = .ok ((("secret").toList), []) ∧
    get_password_input [some (("secret").toList), some (("secreT").toList),
        some (("longpass").toList), some (("longpass").toList)] =
      .ok ((("longpass").toList), []) ∧
    6 ≤ (("secret").toList).length := by
  refine ⟨?_, ?_, ?_⟩
  · rw [C8_password_collector_validates.2.1 (("abcde").toList)
      (("secret").toList) [some (("secret").toList)] (by decide)]
    exact C8_password_collector_validates.2.2.2 (("secret").toList) []
      (by decide)
  · rw [C8_password_collector_validates.2.2.1 (("secret").toList)
      (("secreT").toList)
      [some (("longpass").toList), some (("longpass").toList)]
      (by decide) (by decide)]
    exact C8_password_collector_validates.2.2.2 (("longpass").toList) []
      (by decide)
  · exact C8_password_collector_validates.1
      [some (("secret").toList), some (("secret").toList)]
      (("secret").toList) [] (by rfl)

/-- C9: when the four database statements of a confirmed run are the
lookup, the write, the COMMIT and the post-commit re-read, and only the
re-read raises, the rollback issued by the except handler comes after the
COMMIT and is therefore a no-op: the process exits with status 1 while
the inserted row (first part) or the updated row (second part) persists
in the committed store, so a non-zero exit does not imply the store is
unchanged. -/
theorem C9_reread_error_exits_nonzero_with_committed_row :
    (∀ (db : Db) (eLine pw nameLine : Str) (now salt : Nat),
        pyStrip eLine ≠ [] → emailMatch (pyStrip eLine) = true →
        6 ≤ pw.length → (∀ r ∈ db.rows, r.email ≠ pyStrip eLine) →
        (script.main (okWorld eLine pw (some nameLine) now salt
            [false, false, false, true]) db).db.rows =
          db.rows ++
            [{ id := db.nextId, created_at := now, updated_at := now,
               email := pyStrip eLine,
               name := if pyStrip nameLine = [] then
                   defaultNameOf (pyStrip eLine)
                 else pyStrip nameLine,
               password_hash := bcrypt.hashpw pw salt,
               role := ("admin").toList, is_active := true }] ∧
        (script.main (okWorld eLine pw (some nameLine) now salt
            [false, false, false, true]) db).db.rows ≠ db.rows ∧
        processExit (script.main (okWorld eLine pw (some nameLine) now salt
            [false, false, false, true]) db) = 1) ∧
    (∀ (pre post : List Row) (r : Row) (n : Nat) (eLine pw : Str)
        (nameEntry : Option Str) (now salt : Nat),
        pyStrip eLine ≠ [] → emailMatch (pyStrip eLine) = true →
        6 ≤ pw.length → r.email = pyStrip eLine →
        (∀ x ∈ pre, x.email ≠ pyStrip eLine) →
        (∀ x ∈ post, x.email ≠ pyStrip eLine) →
        (script.main (okWorld eLine pw nameEntry now salt
            [false, false, false, true]) ⟨pre ++ r :: post, n⟩).db =
          ⟨pre ++
             { r with password_hash := bcrypt.hashpw pw salt,
                      role := ("admin").toList, is_active := true,
                      updated_at := now } :: post, n⟩ ∧
        processExit (script.main (okWorld eLine pw nameEntry now salt
            [false, false, false, true]) ⟨pre ++ r :: post, n⟩) = 1) := by
  constructor
  · intro db eLine pw nameLine now salt hE1 hE2 hP hAbs
    rw [main_ok_pipeline db eLine pw (some nameLine) now salt
      [false, false, false, true] hE1 hE2 hP]
    rw [upsertPhase_insert_reread_fail _ db nameLine (pyStrip eLine)
      (bcrypt.hashpw pw salt) hAbs rfl]
    refine ⟨rfl, ?_, rfl⟩
    intro hEq
    have hlen := congrArg List.length hEq
    simp at hlen
  · intro pre post r n eLine pw nameEntry now salt hE1 hE2 hP hr hpre hpost
    rw [main_ok_pipeline ⟨pre ++ r :: post, n⟩ eLine pw nameEntry now salt
      [false, false, false, true] hE1 hE2 hP]
    rw [upsertPhase_update_reread_fail _ pre post r n [nameEntry]
      (pyStrip eLine) (bcrypt.hashpw pw salt) hpre hr hpost rfl]
    exact ⟨rfl, rfl⟩

/-- C9 (witness): the re-read failure applied after inserting a@b.c into
an empty store: the run exits with status 1 and the committed store holds
the new row. -/
theorem C9_reread_error_witness :
    (script.main (okWorld (("a@b.c").toList) (("secret").toList)
        (some (("Ann").toList)) 7 2 [false, false, false, true])
      ⟨[], 1⟩).db.rows =
      [{ id := 1, created_at := 7, updated_at := 7,
         email := ("a@b.c").toList, name := ("Ann").toList,
         password_hash := bcrypt.hashpw (("secret").toList) 2,
         role := ("admin").toList, is_active := true }] ∧
    processExit (script.main (okWorld (("a@b.c").toList) (("secret").toList)
        (some (("Ann").toList)) 7 2 [false, false, false, true])
      ⟨[], 1⟩) = 1 := by
  have h := C9_reread_error_exits_nonzero_with_committed_row.1 ⟨[], 1⟩
    (("a@b.c").toList) (("secret").toList) (("Ann").toList) 7 2
    (by decide) (by decide) (by decide) (by decide)
  exact ⟨h.1, h.2.2⟩

/-- C10: the email line is stripped before validation and the collector
returns the stripped form; a name line that strips to empty selects the
defaulted name; but the password is taken from the masked stream exactly
as typed — any twice-entered string of at least six characters is
accepted, including one consisting only of whitespace. -/
theorem C10_email_name_stripped_password_raw :
    (∀ (line : Str) (rest : List (Option Str)),
        pyStrip line ≠ [] → emailMatch (pyStrip line) = true →
        get_email_input (some line :: rest) = .ok (pyStrip line, rest)) ∧
    (∀ (e line : Str) (rest : List (Option Str)), pyStrip line = [] →
        get_name_input e (some line :: rest) = .ok (defaultNameOf e, rest)) ∧
    (∀ (pw : Str) (rest : List (Option Str)), 6 ≤ pw.length →
        get_password_input (some pw :: some pw :: rest) = .ok (pw, rest)) := by
  refine ⟨get_email_input_accept, ?_, get_password_input_accept⟩
  intro e line rest h
  simp [get_name_input, h]

/-- C10 (witness): an email typed with surrounding blanks is stripped
before validation and returned stripped; a blank name line yields the
default; a password of six spaces, confirmed identically, is accepted
exactly as typed even though it strips to empty. -/
theorem C10_email_name_stripped_password_raw_witness :
    get_email_input [some (("  a@b.c  ").toList)] =
      .ok ((("a@b.c").toList), []) ∧
    get_name_input (("a@b.c").toList) [some (("   ").toList)] =
      .ok (defaultNameOf (("a@b.c").toList), []) ∧
    get_password_input [some (("      ").toList), some (("      ").toList)] =
      .ok ((("      ").toList), []) ∧
    pyStrip (("      ").toList) = [] := by
  refine ⟨?_, ?_, ?_, by decide⟩
  · exact C10_email_name_stripped_password_raw.1 (("  a@b.c  ").toList) []
      (by decide) (by decide)
  · exact C10_email_name_stripped_password_raw.2.1 (("a@b.c").toList)
      (("   ").toList) [] (by decide)
  · exact C10_email_name_stripped_password_raw.2.2 (("      ").toList) []
      (by decide)
